import Mathlib

/-!
Shallow embedding of the ABAPCodeStudio command/response relay core.

Source files embedded here:
* `cloud-backend/orchestrator/agent_bridge.py` — `AgentBridge` (pending-call
  correlation table, `send_command`, `resolve_response`) and `AgentPool`
  (agent registry and system-name map);
* `agent-sdk/tunnel.py` — reconnect backoff loop of `WebSocketTunnel.start`,
  `TunnelStats` bookkeeping, `_send`;
* `agent-sdk/agent.py` — `_handle_cloud_command` (agent-side dispatcher);
* `cloud-backend/api/main.py` — `agent_websocket` handshake and
  `_validate_agent_token`.

Python dicts are modelled as association lists in insertion order with the
dict invariant (at most one entry per key, stated as a `Nodup` hypothesis
where a proof needs it).  The asyncio plumbing is made explicit: a Python
`asyncio.Future` becomes a `FutureState`, and the environment of one
`send_command` execution (did `ws.send_json` raise, when did a matching
response frame arrive) is an explicit `CallEnv` value.
-/

namespace ABAPCodeStudio

/-- Python `m.get(k)`: first (and under the dict invariant, only) value bound
to key `k`, or `none`. -/
def dictGet {α : Type} (m : List (String × α)) (k : String) : Option α :=
  match m with
  | [] => none
  | kv :: rest => if kv.1 = k then some kv.2 else dictGet rest k

/-- Keys of the dict, in insertion order. -/
def dictKeys {α : Type} (m : List (String × α)) : List String :=
  m.map Prod.fst

/-- Python `m[k] = v`: replace the value of an existing key in place, or
append a fresh binding at the end (dicts preserve insertion order). -/
def dictSet {α : Type} (m : List (String × α)) (k : String) (v : α) :
    List (String × α) :=
  match m with
  | [] => [(k, v)]
  | kv :: rest => if kv.1 = k then (k, v) :: rest else kv :: dictSet rest k v

/-- Python `m.pop(k, None)`: drop the binding of key `k` (a no-op when the
key is absent). -/
def dictPop {α : Type} (m : List (String × α)) (k : String) :
    List (String × α) :=
  match m with
  | [] => []
  | kv :: rest => if kv.1 = k then dictPop rest k else kv :: dictPop rest k

/-- Python dict comprehension over a String-valued dict keeping the entries
whose value differs from `a` (agent_bridge.py line 111). -/
def filterValuesNe (m : List (String × String)) (a : String) :
    List (String × String) :=
  match m with
  | [] => []
  | kv :: rest =>
      if kv.2 = a then filterValuesNe rest a else kv :: filterValuesNe rest a

/-! ### Correlation table (`AgentBridge`, agent_bridge.py) -/

/-- State of one `asyncio.Future` parked in `AgentBridge._pending`:
still pending, resolved by `future.set_result(data)`, or cancelled (which is
what `asyncio.wait_for` does to it when the 60 s deadline fires).
`resolved` and `cancelled` both make `future.done()` true. -/
inductive FutureState
  | pending
  | resolved (data : String)
  | cancelled
deriving DecidableEq, Repr

/-- Python `future.done()`. -/
def FutureState.done : FutureState → Bool
  | .pending => false
  | .resolved _ => true
  | .cancelled => true

/-- The `AgentBridge._pending` table: correlation id (`session_id`) to the
state of its parked future. -/
abbrev PendingTable := List (String × FutureState)

/-- `COMMAND_TIMEOUT = 60` (agent_bridge.py line 20). -/
def COMMAND_TIMEOUT : Nat := 60

/-- `AgentBridge.resolve_response` (agent_bridge.py lines 74-83): look the
correlation id up; if a future is there and not yet done, set its result and
return `True`; otherwise return `False` and leave the table as it was. -/
def resolve_response (pending : PendingTable) (session_id : String)
    (data : String) : Bool × PendingTable :=
  match dictGet pending session_id with
  | some future =>
      if future.done then (false, pending)
      else (true, dictSet pending session_id (FutureState.resolved data))
  | none => (false, pending)

/-- `AgentBridge.pending_count` (agent_bridge.py lines 85-87). -/
def pending_count (pending : PendingTable) : Nat :=
  pending.length

/-- Whether `await self.ws.send_json(...)` (agent_bridge.py line 54)
returned normally or raised. -/
inductive SendAttempt
  | ok
  | raises (msg : String)
deriving DecidableEq, Repr

/-- Environment of one `send_command` execution: the outcome of the send,
and the matching response frame, if any ever arrives — given as seconds
after the send together with its `data` payload.  A response arriving at or
after `COMMAND_TIMEOUT` finds the future already cancelled and popped,
because `asyncio.wait_for` cancels the future at the deadline and the
`finally` block pops the entry with no suspension point in between. -/
structure CallEnv where
  send : SendAttempt
  response : Option (Nat × String)
deriving DecidableEq, Repr

/-- Return value and final pending table of one `send_command` execution. -/
structure CallResult where
  ret : Option String
  post : PendingTable
deriving DecidableEq, Repr

/-- `AgentBridge.send_command` (agent_bridge.py lines 36-72), one execution
against environment `env`, with the fresh `uuid4` correlation id passed in
as `session_id`:
line 50 registers the future; a raising send takes the
`except Exception` branch (returns `None`); a response before the deadline
resolves the future via `resolve_response` and `await asyncio.wait_for`
returns the stored result; no response, or a response at or past the
deadline, takes the `except asyncio.TimeoutError` branch (the future is
cancelled, `None` is returned).  Every path runs the `finally` pop of
line 72. -/
def send_command (pending : PendingTable) (session_id : String)
    (env : CallEnv) : CallResult :=
  let registered := dictSet pending session_id FutureState.pending
  match env.send with
  | SendAttempt.raises _ =>
      { ret := none, post := dictPop registered session_id }
  | SendAttempt.ok =>
      match env.response with
      | some (t, data) =>
          if t < COMMAND_TIMEOUT then
            let afterResolve := (resolve_response registered session_id data).2
            { ret :=
                match dictGet afterResolve session_id with
                | some (FutureState.resolved d) => some d
                | _ => none,
              post := dictPop afterResolve session_id }
          else
            { ret := none,
              post :=
                dictPop (dictSet registered session_id FutureState.cancelled)
                  session_id }
      | none =>
          { ret := none,
            post :=
              dictPop (dictSet registered session_id FutureState.cancelled)
                session_id }

/-! ### Agent registry (`AgentPool`, agent_bridge.py) -/

/-- An `AgentBridge` object held in `AgentPool._agents`, identified by the
agent id it was constructed with (agent_bridge.py lines 31-34). -/
structure AgentBridgeRef where
  agent_id : String
deriving DecidableEq, Repr

/-- `AgentPool` (agent_bridge.py lines 90-141): `_agents` maps agent_id to
its bridge, `_system_map` maps system_name to agent_id. -/
structure AgentPool where
  agents : List (String × AgentBridgeRef)
  system_map : List (String × String)
deriving DecidableEq, Repr

/-- `AgentPool.register` (agent_bridge.py lines 100-105). -/
def AgentPool.register (pool : AgentPool) (agent_id : String) :
    AgentBridgeRef × AgentPool :=
  let bridge : AgentBridgeRef := { agent_id := agent_id }
  (bridge, { pool with agents := dictSet pool.agents agent_id bridge })

/-- `AgentPool.unregister` (agent_bridge.py lines 107-112): pop the agent
and rebuild `_system_map` keeping only entries whose value is a different
agent id. -/
def AgentPool.unregister (pool : AgentPool) (agent_id : String) : AgentPool :=
  { agents := dictPop pool.agents agent_id,
    system_map := filterValuesNe pool.system_map agent_id }

/-- `AgentPool.map_system` (agent_bridge.py lines 114-116). -/
def AgentPool.map_system (pool : AgentPool) (system_name agent_id : String) :
    AgentPool :=
  { pool with system_map := dictSet pool.system_map system_name agent_id }

/-- `AgentPool.get_by_agent_id` (agent_bridge.py lines 118-120). -/
def AgentPool.get_by_agent_id (pool : AgentPool) (agent_id : String) :
    Option AgentBridgeRef :=
  dictGet pool.agents agent_id

/-- `AgentPool.get_by_system` (agent_bridge.py lines 122-127): look the
system name up in `_system_map`; the Python truthiness test `if agent_id:`
also rejects the empty string; then look the agent id up in `_agents`. -/
def AgentPool.get_by_system (pool : AgentPool) (system_name : String) :
    Option AgentBridgeRef :=
  match dictGet pool.system_map system_name with
  | some agent_id =>
      if agent_id = "" then none else dictGet pool.agents agent_id
  | none => none

/-! ### Reconnection supervisor (`WebSocketTunnel.start`, tunnel.py) -/

/-- `RECONNECT_DELAY_INITIAL = 2` (tunnel.py line 30). -/
def RECONNECT_DELAY_INITIAL : Nat := 2

/-- `RECONNECT_DELAY_MAX = 60` (tunnel.py line 31). -/
def RECONNECT_DELAY_MAX : Nat := 60

/-- `reconnect_delay = min(reconnect_delay * 2, RECONNECT_DELAY_MAX)`
(tunnel.py line 154), run after the backoff sleep of a failed iteration. -/
def backoffStep (delay : Nat) : Nat :=
  min (delay * 2) RECONNECT_DELAY_MAX

/-- One observable event of the `while self._running` loop in
`WebSocketTunnel.start`: `failure` is the `except Exception` branch
(lines 145-154: sleep `reconnect_delay`, then double it up to the cap);
`success` is a successful `websockets.connect` (line 110 resets
`reconnect_delay` to the initial value, no sleep). -/
inductive ConnEvent
  | failure
  | success
deriving DecidableEq, Repr

/-- The sequence of backoff sleeps the loop performs, given the current
`reconnect_delay` and the events it encounters. -/
def delayTrace (delay : Nat) : List ConnEvent → List Nat
  | [] => []
  | ConnEvent.failure :: es => delay :: delayTrace (backoffStep delay) es
  | ConnEvent.success :: es => delayTrace RECONNECT_DELAY_INITIAL es

/-- `reconnect_delay` after `n` consecutive failures, starting from the
initial value (so it is also the sleep performed on failure `n + 1`). -/
def delayAfterFailures : Nat → Nat
  | 0 => RECONNECT_DELAY_INITIAL
  | n + 1 => backoffStep (delayAfterFailures n)

/-! ### Session statistics (`TunnelStats`, tunnel.py) -/

/-- `TunnelStats` (tunnel.py lines 36-47).  Timestamps are modelled as `Nat`
seconds. -/
structure TunnelStats where
  connected_since : Option Nat := none
  messages_sent : Nat := 0
  messages_received : Nat := 0
  commands_processed : Nat := 0
  reconnect_count : Nat := 0
  last_heartbeat : Option Nat := none
  bytes_sent : Nat := 0
  bytes_received : Nat := 0
deriving DecidableEq, Repr

/-- The `TunnelStats()` object created once in `WebSocketTunnel.__init__`
(tunnel.py line 73); all fields at their zero defaults. -/
def TunnelStats.fresh : TunnelStats := {}

/-- Effect of a successful (re)connection on the stats (tunnel.py
line 109): only `connected_since` is written; the `TunnelStats` object is
never replaced after `__init__`. -/
def onConnected (s : TunnelStats) (now : Nat) : TunnelStats :=
  { s with connected_since := some now }

/-- Effect of the `except Exception` disconnect branch on the stats
(tunnel.py line 147): `reconnect_count` is incremented. -/
def onDisconnected (s : TunnelStats) : TunnelStats :=
  { s with reconnect_count := s.reconnect_count + 1 }

/-- Effect of receiving one raw message of `size` bytes (tunnel.py
lines 122-123). -/
def onMessageReceived (s : TunnelStats) (size : Nat) : TunnelStats :=
  { s with
    messages_received := s.messages_received + 1,
    bytes_received := s.bytes_received + size }

/-! ### Sending (`WebSocketTunnel._send`, tunnel.py) -/

/-- What one `_send` call did: on a missing channel it logs
"Cannot send — not connected" and drops the frame, returning normally;
otherwise the serialized frame goes out on the wire. -/
inductive SendOutcome
  | notConnectedWarning
  | sent (raw : String)
deriving DecidableEq, Repr

/-- `WebSocketTunnel._send` (tunnel.py lines 194-202), with `raw` the
`json.dumps` serialization of the frame.  `ws` is `self._ws` (`none` both
when never connected and after closure, since the disconnect branch and
`stop()` null it out).  `sendErr` models `await self._ws.send(raw)`
raising on a live channel, which does propagate (`Except.error`);
the not-connected branch returns normally without touching the stats. -/
def tunnel_send (ws : Option Unit) (sendErr : Option String)
    (stats : TunnelStats) (raw : String) :
    Except String (SendOutcome × TunnelStats) :=
  match ws with
  | none => Except.ok (SendOutcome.notConnectedWarning, stats)
  | some _ =>
      match sendErr with
      | some e => Except.error e
      | none =>
          Except.ok (SendOutcome.sent raw,
            { stats with
              messages_sent := stats.messages_sent + 1,
              bytes_sent := stats.bytes_sent + raw.length })

/-! ### Agent-side dispatcher (`_handle_cloud_command`, agent.py) -/

/-- Behaviour of one `mcp_server.sap_*` handler call: the returned result
string, or the exception it raised. -/
inductive HandlerOutcome
  | success (result : String)
  | raises (msg : String)
deriving DecidableEq, Repr

/-- The response dict built by `_handle_cloud_command`: `type` is
`"result"` or `"error"`, `session_id` echoes the request's correlation id,
and exactly one of `data` / `error` is populated. -/
structure ResponseFrame where
  type : String
  session_id : String
  data : Option String
  error : Option String
deriving DecidableEq, Repr

/-- `_handle_cloud_command` (agent.py lines 184-215).  `oracle` gives the
behaviour of the `mcp_server` handler invoked for each known command kind;
`"ping"` answers `"pong"` inline, and any other kind sets
`result = f"Unknown command: {cmd_type}"`.  The `try` body then returns a
`result` frame; any handler exception is caught and becomes an `error`
frame. -/
def handle_cloud_command (oracle : String → HandlerOutcome)
    (cmd_type session_id : String) : ResponseFrame :=
  let outcome : HandlerOutcome :=
    if cmd_type = "search" then oracle "search"
    else if cmd_type = "read" then oracle "read"
    else if cmd_type = "write" then oracle "write"
    else if cmd_type = "activate" then oracle "activate"
    else if cmd_type = "syntax_check" then oracle "syntax_check"
    else if cmd_type = "atc" then oracle "atc"
    else if cmd_type = "ping" then HandlerOutcome.success "pong"
    else HandlerOutcome.success ("Unknown command: " ++ cmd_type)
  match outcome with
  | HandlerOutcome.success r =>
      { type := "result", session_id := session_id, data := some r,
        error := none }
  | HandlerOutcome.raises e =>
      { type := "error", session_id := session_id, data := none,
        error := some e }

/-! ### Agent websocket handshake (`agent_websocket`, main.py) -/

/-- `_validate_agent_token` (main.py lines 404-409):
`if not token or not token.startswith("acs_"): return None` then
`return f"agent_{token[:16]}"`.  `startswith` and the slice are written out
on the character list. -/
def validate_agent_token (token : String) : Option String :=
  if token = "" ∨ ("acs_".data.isPrefixOf token.data) = false then none
  else some ("agent_" ++ String.mk (token.data.take 16))

/-- Observable outcome of one `agent_websocket` invocation (main.py
lines 302-359).  `registry_after_auth` is `_agent_connections` right after
the authentication block, `registry_final` after the `finally` pop,
`frames_processed` the number of inbound frames the receive loop handled. -/
structure AgentWsRun where
  close_code : Option Nat
  close_reason : Option String
  registry_after_auth : List String
  registry_final : List String
  frames_processed : Nat
deriving DecidableEq, Repr

/-- Key set of `_agent_connections` after `_agent_connections[agent_id] = ws`. -/
def regInsert (r : List String) (k : String) : List String :=
  if k ∈ r then r else k :: r

/-- Key set of `_agent_connections` after `_agent_connections.pop(agent_id, None)`. -/
def regRemove (r : List String) (k : String) : List String :=
  match r with
  | [] => []
  | x :: rest => if x = k then regRemove rest k else x :: regRemove rest k

/-- `agent_websocket` (main.py lines 302-359), with `token` the bearer token
already stripped from the `authorization` header (line 317) and `registry`
the key set of `_agent_connections` at entry.  An invalid or missing token
closes with code 4001 and reason "Invalid agent token" before the receive
loop runs and without touching the registry; a valid token registers the
derived agent id, runs the receive loop over the `inbound` frames, and the
`finally` block removes the agent again on disconnect. -/
def agent_websocket (registry : List String) (token : String)
    (inbound : Nat) : AgentWsRun :=
  match validate_agent_token token with
  | none =>
      { close_code := some 4001, close_reason := some "Invalid agent token",
        registry_after_auth := registry, registry_final := registry,
        frames_processed := 0 }
  | some agent_id =>
      let reg := regInsert registry agent_id
      { close_code := none, close_reason := none,
        registry_after_auth := reg,
        registry_final := regRemove reg agent_id,
        frames_processed := inbound }

/-! ### Dict lemmas -/

theorem dictGet_of_not_mem {α : Type} (m : List (String × α)) (k : String)
    (h : k ∉ dictKeys m) : dictGet m k = none := by
  induction m with
  | nil => rfl
  | cons kv rest ih =>
      simp only [dictKeys, List.map_cons, List.mem_cons, not_or] at h
      have hk : kv.1 ≠ k := fun hh => h.1 hh.symm
      simp only [dictGet, if_neg hk]
      exact ih (by simpa [dictKeys] using h.2)

theorem dictGet_dictSet_self {α : Type} (m : List (String × α)) (k : String)
    (v : α) : dictGet (dictSet m k v) k = some v := by
  induction m with
  | nil => simp [dictSet, dictGet]
  | cons kv rest ih =>
      by_cases hk : kv.1 = k
      · simp [dictSet, dictGet, hk]
      · simp [dictSet, dictGet, hk, ih]

theorem dictSet_dictSet {α : Type} (m : List (String × α)) (k : String)
    (v w : α) : dictSet (dictSet m k v) k w = dictSet m k w := by
  induction m with
  | nil => simp [dictSet]
  | cons kv rest ih =>
      by_cases hk : kv.1 = k
      · simp [dictSet, hk]
      · simp [dictSet, hk, ih]

theorem dictPop_dictSet {α : Type} (m : List (String × α)) (k : String)
    (v : α) (h : k ∉ dictKeys m) : dictPop (dictSet m k v) k = m := by
  induction m with
  | nil => simp [dictSet, dictPop]
  | cons kv rest ih =>
      simp only [dictKeys, List.map_cons, List.mem_cons, not_or] at h
      have hk : kv.1 ≠ k := fun hh => h.1 hh.symm
      simp [dictSet, dictPop, hk, ih (by simpa [dictKeys] using h.2)]

theorem length_dictSet_of_not_mem {α : Type} (m : List (String × α))
    (k : String) (v : α) (h : k ∉ dictKeys m) :
    (dictSet m k v).length = m.length + 1 := by
  induction m with
  | nil => simp [dictSet]
  | cons kv rest ih =>
      simp only [dictKeys, List.map_cons, List.mem_cons, not_or] at h
      have hk : kv.1 ≠ k := fun hh => h.1 hh.symm
      simp [dictSet, hk, ih (by simpa [dictKeys] using h.2)]

theorem dictGet_filterValuesNe_of_none (m : List (String × String))
    (k a : String) (h : dictGet m k = none) :
    dictGet (filterValuesNe m a) k = none := by
  induction m with
  | nil => rfl
  | cons kv rest ih =>
      simp only [dictGet] at h
      by_cases hk : kv.1 = k
      · simp [hk] at h
      · simp only [if_neg hk] at h
        by_cases hv : kv.2 = a
        · simp [filterValuesNe, hv, ih h]
        · simp [filterValuesNe, hv, dictGet, hk, ih h]

theorem dictGet_filterValuesNe (m : List (String × String)) (k a v : String)
    (hnd : (dictKeys m).Nodup) (h : dictGet m k = some v) :
    dictGet (filterValuesNe m a) k = if v = a then none else some v := by
  induction m with
  | nil => simp [dictGet] at h
  | cons kv rest ih =>
      simp only [dictKeys, List.map_cons, List.nodup_cons] at hnd
      by_cases hk : kv.1 = k
      · simp only [dictGet, if_pos hk] at h
        have hv2 : kv.2 = v := by injection h
        subst hv2
        have hrest : dictGet rest k = none := by
          apply dictGet_of_not_mem
          rw [← hk]
          simpa [dictKeys] using hnd.1
        by_cases hv : kv.2 = a
        · simp only [filterValuesNe, if_pos hv]
          exact dictGet_filterValuesNe_of_none rest k a hrest
        · simp [filterValuesNe, hv, dictGet, hk]
      · simp only [dictGet, if_neg hk] at h
        by_cases hv : kv.2 = a
        · simp only [filterValuesNe, if_pos hv]
          exact ih hnd.2 h
        · simp only [filterValuesNe, if_neg hv, dictGet, if_neg hk]
          exact ih hnd.2 h

theorem dictGet_dictPop_self {α : Type} (m : List (String × α))
    (k : String) : dictGet (dictPop m k) k = none := by
  induction m with
  | nil => rfl
  | cons kv rest ih =>
      by_cases hk : kv.1 = k
      · simp [dictPop, hk, ih]
      · simp [dictPop, dictGet, hk, ih]

/-! ### send_command helper lemmas -/

/-- When the future parked under `session_id` is still pending,
`resolve_response` settles it with the data and reports success. -/
theorem resolve_of_get_pending (m : PendingTable) (sid data : String)
    (h : dictGet m sid = some FutureState.pending) :
    resolve_response m sid data =
      (true, dictSet m sid (FutureState.resolved data)) := by
  simp [resolve_response, h, FutureState.done]

/-- The `finally` pop of `send_command` undoes the registration on every
exit path, so the pending table returns to its prior value. -/
theorem send_command_post_eq (p : PendingTable) (sid : String)
    (env : CallEnv) (h : sid ∉ dictKeys p) : (send_command p sid env).post = p := by
  obtain ⟨send, response⟩ := env
  have hreg : dictGet (dictSet p sid FutureState.pending) sid
      = some FutureState.pending := dictGet_dictSet_self p sid _
  cases send with
  | raises m => simpa [send_command] using dictPop_dictSet p sid _ h
  | ok =>
      cases response with
      | none =>
          simp only [send_command]
          rw [dictSet_dictSet, dictPop_dictSet p sid _ h]
      | some tr =>
          obtain ⟨t, data⟩ := tr
          by_cases ht : t < COMMAND_TIMEOUT
          · simp only [send_command, if_pos ht,
              resolve_of_get_pending _ sid data hreg]
            rw [dictSet_dictSet, dictPop_dictSet p sid _ h]
          · simp only [send_command, if_neg ht]
            rw [dictSet_dictSet, dictPop_dictSet p sid _ h]

/-- On the in-time-response path, `send_command` returns the data the
future was resolved with. -/
theorem send_command_ret_of_in_time (p : PendingTable) (sid data : String)
    (t : Nat) (ht : t < COMMAND_TIMEOUT) :
    (send_command p sid ⟨SendAttempt.ok, some (t, data)⟩).ret = some data := by
  have hreg : dictGet (dictSet p sid FutureState.pending) sid
      = some FutureState.pending := dictGet_dictSet_self p sid _
  simp only [send_command, if_pos ht, resolve_of_get_pending _ sid data hreg,
    dictGet_dictSet_self]

/-! ### Claim theorems -/

/-- C1: At-most-once settlement of pending calls. `resolve_response`
returns `true` iff a waiter with that correlation id exists and is not
already settled; when it returns `false` the pending table is left
unchanged; after a successful resolve, any further resolve of the same id
returns `false`; and after a `send_command` execution has completed (by
matching response or by local timeout), resolving its id is a no-op
returning `false` — so a waiter is settled by exactly one of a matching
response and a local timeout, never both. -/
theorem resolve_response_at_most_once (pending : PendingTable)
    (sid data : String) :
    ((resolve_response pending sid data).1 = true
        ↔ ∃ st, dictGet pending sid = some st ∧ st.done = false)
    ∧ ((resolve_response pending sid data).1 = false
        → (resolve_response pending sid data).2 = pending)
    ∧ ((resolve_response pending sid data).1 = true
        → ∀ d2, (resolve_response (resolve_response pending sid data).2 sid d2).1
            = false)
    ∧ (∀ p0 env, sid ∉ dictKeys p0
        → pending = (send_command p0 sid env).post
        → (resolve_response pending sid data).1 = false) := by
  rcases hget : dictGet pending sid with _ | st
  · have hres : resolve_response pending sid data = (false, pending) := by
      simp [resolve_response, hget]
    refine ⟨?_, fun _ => by rw [hres], ?_, ?_⟩
    · rw [hres]
      constructor
      · intro hco; exact absurd hco (by simp)
      · rintro ⟨st2, hst2, -⟩
        exact absurd hst2 (by simp)
    · intro hco
      rw [hres] at hco
      simp at hco
    · intro p0 env hfresh hpost
      rw [hres]
  · cases hdone : st.done
    · have hstp : st = FutureState.pending := by
        cases st with
        | pending => rfl
        | resolved d => simp [FutureState.done] at hdone
        | cancelled => simp [FutureState.done] at hdone
      subst hstp
      have hres := resolve_of_get_pending pending sid data hget
      refine ⟨?_, ?_, ?_, ?_⟩
      · rw [hres]
        exact ⟨fun _ => ⟨FutureState.pending, rfl, rfl⟩, fun _ => rfl⟩
      · intro hco
        rw [hres] at hco
        simp at hco
      · intro _ d2
        rw [hres]
        simp [resolve_response, dictGet_dictSet_self, FutureState.done]
      · intro p0 env hfresh hpost
        rw [hpost, send_command_post_eq p0 sid env hfresh] at hget
        rw [dictGet_of_not_mem p0 sid hfresh] at hget
        exact absurd hget (by simp)
    · have hres : resolve_response pending sid data = (false, pending) := by
        simp [resolve_response, hget, hdone]
      refine ⟨?_, fun _ => by rw [hres], ?_, ?_⟩
      · rw [hres]
        constructor
        · intro hco; exact absurd hco (by simp)
        · rintro ⟨st2, hst2, hd2⟩
          injection hst2 with hst2
          subst hst2
          rw [hdone] at hd2
          exact absurd hd2 (by simp)
      · intro hco
        rw [hres] at hco
        simp at hco
      · intro p0 env hfresh hpost
        rw [hres]

/-- Witness for C1: concrete table with one pending waiter; first resolve
succeeds, a duplicate resolve of the same id is ignored, and a late resolve
after a completed `send_command` run is ignored. -/
theorem resolve_response_at_most_once_w :
    (resolve_response [("s1", FutureState.pending)] "s1" "ok").1 = true
    ∧ (resolve_response
        ((resolve_response [("s1", FutureState.pending)] "s1" "ok").2)
        "s1" "late").1 = false
    ∧ (resolve_response ([] : PendingTable) "s1" "late").1 = false := by
  have h := resolve_response_at_most_once [("s1", FutureState.pending)]
    "s1" "ok"
  have h0 := resolve_response_at_most_once ([] : PendingTable) "s1" "late"
  have h1 : (resolve_response [("s1", FutureState.pending)] "s1" "ok").1
      = true :=
    h.1.mpr ⟨FutureState.pending, by decide, by decide⟩
  refine ⟨h1, h.2.2.1 h1 "late", ?_⟩
  exact h0.2.2.2 [] ⟨SendAttempt.ok, none⟩ (by decide) (by decide)

/-- C6: `send_command` returns the agent's result string when a matching
response arrives within the 60 s deadline, and returns `none` on timeout
(no response, or a response at or past the deadline) and on send failure;
as a total function into `Option String` it never raises, so the caller
observes exactly two outcomes: a result value or `none`. -/
theorem send_command_two_outcomes (p : PendingTable) (sid data m : String)
    (t : Nat) (r : Option (Nat × String)) :
    (t < COMMAND_TIMEOUT
        → (send_command p sid ⟨SendAttempt.ok, some (t, data)⟩).ret
            = some data)
    ∧ (COMMAND_TIMEOUT ≤ t
        → (send_command p sid ⟨SendAttempt.ok, some (t, data)⟩).ret = none)
    ∧ (send_command p sid ⟨SendAttempt.ok, none⟩).ret = none
    ∧ (send_command p sid ⟨SendAttempt.raises m, r⟩).ret = none
    ∧ (∀ env, (send_command p sid env).ret = none
        ∨ ∃ d, (send_command p sid env).ret = some d) := by
  refine ⟨fun ht => send_command_ret_of_in_time p sid data t ht,
    fun ht => ?_, by simp [send_command], by simp [send_command], ?_⟩
  · simp [send_command, Nat.not_lt.mpr ht]
  · intro env
    rcases henv : (send_command p sid env).ret with _ | d
    · exact Or.inl rfl
    · exact Or.inr ⟨d, rfl⟩

/-- Witness for C6: a response at 5 s yields the result, a response at 61 s
yields `none`. -/
theorem send_command_two_outcomes_w :
    (send_command [] "s1" ⟨SendAttempt.ok, some (5, "r")⟩).ret = some "r"
    ∧ (send_command [] "s1" ⟨SendAttempt.ok, some (61, "r")⟩).ret = none := by
  exact ⟨(send_command_two_outcomes [] "s1" "r" "m" 5 none).1 (by decide),
    (send_command_two_outcomes [] "s1" "r" "m" 61 none).2.1 (by decide)⟩

/-- C10: pending-table bookkeeping. `send_command` registers exactly one
fresh entry (the table grows by one), and on every exit path — response,
timeout, send failure — the `finally` pop removes it, so the post table
equals the prior table, `pending_count` returns to its prior value, and the
correlation id is no longer present. -/
theorem send_command_pending_no_leak (p : PendingTable) (sid : String)
    (h : sid ∉ dictKeys p) :
    pending_count (dictSet p sid FutureState.pending) = pending_count p + 1
    ∧ ∀ env, (send_command p sid env).post = p
        ∧ pending_count (send_command p sid env).post = pending_count p
        ∧ dictGet (send_command p sid env).post sid = none := by
  refine ⟨length_dictSet_of_not_mem p sid _ h, fun env => ?_⟩
  have hpost := send_command_post_eq p sid env h
  exact ⟨hpost, by rw [hpost], by rw [hpost]; exact dictGet_of_not_mem p sid h⟩

/-- Witness for C10: a concrete run over a table holding one other pending
call. -/
theorem send_command_pending_no_leak_w :
    pending_count
        (dictSet [("zz", FutureState.pending)] "s1" FutureState.pending) = 2
    ∧ (send_command [("zz", FutureState.pending)] "s1"
        ⟨SendAttempt.ok, some (3, "d")⟩).post = [("zz", FutureState.pending)] := by
  have h := send_command_pending_no_leak [("zz", FutureState.pending)] "s1"
    (by decide)
  exact ⟨h.1, (h.2 ⟨SendAttempt.ok, some (3, "d")⟩).1⟩

/-- C2: reconnection backoff.  Over consecutive failures starting from the
initial 2 s delay the sleep sequence is `2,4,8,16,32,60,60,...` (doubling,
capped at 60 s, hence monotonically non-decreasing), the spec's scenario of
5 failures, 1 success, 1 failure sleeps `2,4,8,16,32` then `2`, and every
successful connection resets the delay to the initial 2 s. -/
theorem reconnect_backoff_spec :
    delayTrace RECONNECT_DELAY_INITIAL (List.replicate 7 ConnEvent.failure)
      = [2, 4, 8, 16, 32, 60, 60]
    ∧ delayTrace RECONNECT_DELAY_INITIAL
        (List.replicate 5 ConnEvent.failure
          ++ [ConnEvent.success, ConnEvent.failure]) = [2, 4, 8, 16, 32, 2]
    ∧ (∀ d es, delayTrace d (ConnEvent.success :: es)
        = delayTrace RECONNECT_DELAY_INITIAL es)
    ∧ (∀ n, delayAfterFailures n = min (2 ^ (n + 1)) 60)
    ∧ (∀ n, delayAfterFailures n ≤ delayAfterFailures (n + 1))
    ∧ (∀ n, delayAfterFailures n ≤ RECONNECT_DELAY_MAX) := by
  have hclosed : ∀ n, delayAfterFailures n = min (2 ^ (n + 1)) 60 := by
    intro n
    induction n with
    | zero => decide
    | succ n ih =>
        show backoffStep (delayAfterFailures n) = _
        rw [ih, backoffStep, RECONNECT_DELAY_MAX]
        have h2 : (2 : Nat) ^ (n + 1 + 1) = 2 ^ (n + 1) * 2 := by ring
        rw [h2]
        generalize (2 : Nat) ^ (n + 1) = x
        omega
  refine ⟨by decide, by decide, fun d es => rfl, hclosed, fun n => ?_,
    fun n => ?_⟩
  · rw [hclosed n, hclosed (n + 1)]
    have hpow : (2 : Nat) ^ (n + 1) ≤ 2 ^ (n + 1 + 1) :=
      Nat.pow_le_pow_right (by norm_num) (by omega)
    omega
  · rw [hclosed n, RECONNECT_DELAY_MAX]
    omega

/-- Stats after a first connection and two received messages (10 and 20
bytes): a mid-life `TunnelStats` value used to exhibit C7's failure. -/
def stats_c7 : TunnelStats :=
  onMessageReceived (onMessageReceived (onConnected TunnelStats.fresh 100) 10) 20

/-- The same stats after a disconnect and a reconnect at time 200. -/
def stats_c7_after : TunnelStats :=
  onConnected (onDisconnected stats_c7) 200

/-- Counterexample to C7: after a reconnect, `messages_received` is still 2
and `bytes_received` still 30 — not a fresh `Session`'s zero values, so the
claimed reset does not happen. -/
theorem reconnect_stats_not_reset_cex :
    stats_c7_after.messages_received = 2
    ∧ stats_c7_after.messages_received ≠ TunnelStats.fresh.messages_received
    ∧ stats_c7_after.bytes_received = 30
    ∧ stats_c7_after.bytes_received ≠ TunnelStats.fresh.bytes_received := by
  decide

/-- C7 (amended): on every reconnect only `connected_since` is overwritten
(with the new connection time); the counters (messages/bytes sent and
received, `commands_processed`) and `last_heartbeat` are NOT reset — they
persist cumulatively — and `reconnect_count` is incremented by the
disconnect and persists for the supervisor lifetime. -/
theorem reconnect_stats_persist (s : TunnelStats) (now : Nat) :
    (onConnected (onDisconnected s) now).messages_sent = s.messages_sent
    ∧ (onConnected (onDisconnected s) now).messages_received
        = s.messages_received
    ∧ (onConnected (onDisconnected s) now).bytes_sent = s.bytes_sent
    ∧ (onConnected (onDisconnected s) now).bytes_received = s.bytes_received
    ∧ (onConnected (onDisconnected s) now).commands_processed
        = s.commands_processed
    ∧ (onConnected (onDisconnected s) now).last_heartbeat = s.last_heartbeat
    ∧ (onConnected (onDisconnected s) now).reconnect_count
        = s.reconnect_count + 1
    ∧ (onConnected (onDisconnected s) now).connected_since = some now :=
  ⟨rfl, rfl, rfl, rfl, rfl, rfl, rfl, rfl⟩

/-- C9: `_send` on an absent/closed channel (`self._ws = None`) returns
normally (`Except.ok`, no exception propagates to the caller), logs the
"not connected" warning and drops the frame (the outcome is never `sent`),
and leaves the stats — and hence the session — untouched. -/
theorem tunnel_send_not_connected_advisory (sendErr : Option String)
    (stats : TunnelStats) (raw : String) :
    tunnel_send none sendErr stats raw
      = Except.ok (SendOutcome.notConnectedWarning, stats)
    ∧ ∀ raw2, SendOutcome.notConnectedWarning ≠ SendOutcome.sent raw2 := by
  exact ⟨rfl, fun raw2 => by simp⟩

/-- Counterexample to C3: for the unknown command kind `"frobnicate"` the
dispatcher returns a frame whose `type` is `"result"`, not `"error"` — the
claimed `error` frame is not what the code produces. -/
theorem handle_unknown_command_not_error_cex :
    (handle_cloud_command (fun k => HandlerOutcome.raises k) "frobnicate"
        "s1").type = "result"
    ∧ (handle_cloud_command (fun k => HandlerOutcome.raises k) "frobnicate"
        "s1").type ≠ "error" := by
  decide

/-- C3 (amended): for every inbound command frame whose kind has no
registered handler, the dispatcher produces a `result` frame (not a raised
exception and not a closed session) carrying the descriptive
"Unknown command: ..." payload and the same correlation id (`session_id`)
as the request. -/
theorem handle_unknown_command_result_frame (oracle : String → HandlerOutcome)
    (cmd_type session_id : String)
    (h : cmd_type ∉ ["search", "read", "write", "activate", "syntax_check",
        "atc", "ping"]) :
    handle_cloud_command oracle cmd_type session_id
      = { type := "result", session_id := session_id,
          data := some ("Unknown command: " ++ cmd_type), error := none } := by
  simp only [List.mem_cons, List.not_mem_nil, or_false, not_or] at h
  obtain ⟨h1, h2, h3, h4, h5, h6, h7⟩ := h
  simp [handle_cloud_command, h1, h2, h3, h4, h5, h6, h7]

/-- Witness for C3's amended theorem at kind `"frobnicate"`. -/
theorem handle_unknown_command_result_frame_w :
    handle_cloud_command (fun k => HandlerOutcome.success k) "frobnicate" "s1"
      = { type := "result", session_id := "s1",
          data := some ("Unknown command: " ++ "frobnicate"),
          error := none } :=
  handle_unknown_command_result_frame (fun k => HandlerOutcome.success k)
    "frobnicate" "s1" (by decide)

/-- A pool in which system `"ecc"` is mapped to agent `"a1"` but `"a1"` has
disconnected (it is absent from `_agents`). -/
def pool_c4 : AgentPool :=
  { agents := [], system_map := [("ecc", "a1")] }

/-- Counterexample to C4: looking up a mapped-but-disconnected system
(`"ecc"`) and a never-mapped system (`"never_mapped"`) both return `none` —
the two failure modes are not distinguishable from `get_by_system`'s
outcome. -/
theorem get_by_system_indistinguishable_cex :
    AgentPool.get_by_system pool_c4 "ecc" = none
    ∧ AgentPool.get_by_system pool_c4 "never_mapped" = none
    ∧ AgentPool.get_by_system pool_c4 "ecc"
        = AgentPool.get_by_system pool_c4 "never_mapped" := by
  decide

/-- C4 (amended): both failure modes are non-throwing — `get_by_system`
returns `none` both for a name that was never mapped and for a name whose
mapped agent has disconnected — but the two outcomes are the same `none`,
not distinguishable from each other. -/
theorem get_by_system_nonthrowing_none (pool : AgentPool) (name : String) :
    (dictGet pool.system_map name = none
        → AgentPool.get_by_system pool name = none)
    ∧ (∀ aid, dictGet pool.system_map name = some aid
        → dictGet pool.agents aid = none
        → AgentPool.get_by_system pool name = none) := by
  constructor
  · intro h
    simp [AgentPool.get_by_system, h]
  · intro aid h hag
    by_cases he : aid = ""
    · simp [AgentPool.get_by_system, h, he]
    · simp [AgentPool.get_by_system, h, he, hag]

/-- Witness for C4's amended theorem: both failure modes on `pool_c4`. -/
theorem get_by_system_nonthrowing_none_w :
    AgentPool.get_by_system pool_c4 "zzz" = none
    ∧ AgentPool.get_by_system pool_c4 "ecc" = none := by
  exact ⟨(get_by_system_nonthrowing_none pool_c4 "zzz").1 (by decide),
    (get_by_system_nonthrowing_none pool_c4 "ecc").2 "a1" (by decide)
      (by decide)⟩

/-- C5: after `unregister(agent_id)` the agent is gone from `_agents`,
every system-name mapping that pointed at it is removed (its `dictGet` and
`get_by_system` both yield `none`), and mappings to other agents are
unchanged.  The `Nodup` hypothesis is the Python dict invariant (one entry
per key in `_system_map`). -/
theorem unregister_purges_mappings (pool : AgentPool) (aid : String)
    (hnd : (dictKeys pool.system_map).Nodup) :
    dictGet (AgentPool.unregister pool aid).agents aid = none
    ∧ (∀ name, dictGet pool.system_map name = some aid
        → dictGet (AgentPool.unregister pool aid).system_map name = none
          ∧ AgentPool.get_by_system (AgentPool.unregister pool aid) name
              = none)
    ∧ (∀ name aid2, aid2 ≠ aid
        → (dictGet (AgentPool.unregister pool aid).system_map name = some aid2
            ↔ dictGet pool.system_map name = some aid2)) := by
  have hsm : (AgentPool.unregister pool aid).system_map
      = filterValuesNe pool.system_map aid := rfl
  refine ⟨dictGet_dictPop_self pool.agents aid, ?_, ?_⟩
  · intro name hmap
    have hnone : dictGet (filterValuesNe pool.system_map aid) name = none := by
      have hA := dictGet_filterValuesNe pool.system_map name aid aid hnd hmap
      simpa using hA
    refine ⟨by rw [hsm]; exact hnone, ?_⟩
    simp [AgentPool.get_by_system, hsm, hnone]
  · intro name aid2 hne
    constructor
    · intro hf
      rw [hsm] at hf
      rcases horig : dictGet pool.system_map name with _ | w
      · rw [dictGet_filterValuesNe_of_none pool.system_map name aid horig]
          at hf
        exact absurd hf (by simp)
      · have hA := dictGet_filterValuesNe pool.system_map name aid w hnd horig
        rw [hA] at hf
        by_cases hw : w = aid
        · rw [if_pos hw] at hf
          exact absurd hf (by simp)
        · rw [if_neg hw] at hf
          injection hf with hf
          subst hf
          rfl
    · intro horig
      have hA := dictGet_filterValuesNe pool.system_map name aid aid2 hnd horig
      rw [if_neg hne] at hA
      rw [hsm]
      exact hA

/-- A pool with two connected agents and one system mapped to each. -/
def pool_c5 : AgentPool :=
  { agents := [("a1", { agent_id := "a1" }), ("a2", { agent_id := "a2" })],
    system_map := [("ecc", "a1"), ("hr", "a2")] }

/-- Witness for C5: unregistering `"a1"` removes it and its `"ecc"` mapping
while the `"hr"` mapping to `"a2"` survives. -/
theorem unregister_purges_mappings_w :
    dictGet (AgentPool.unregister pool_c5 "a1").agents "a1" = none
    ∧ AgentPool.get_by_system (AgentPool.unregister pool_c5 "a1") "ecc" = none
    ∧ dictGet (AgentPool.unregister pool_c5 "a1").system_map "hr"
        = some "a2" := by
  have h := unregister_purges_mappings pool_c5 "a1" (by decide)
  exact ⟨h.1, (h.2.1 "ecc" (by decide)).2,
    (h.2.2 "hr" "a2" (by decide)).mpr (by decide)⟩

/-- C8: an inbound agent connection presenting a missing or invalid bearer
token is closed immediately with the reserved code 4001 and reason
"Invalid agent token", with zero frames processed and the connection
registry untouched (the agent is never entered); a validated token never
closes with 4001 (its close_code is `none`), so 4001 is distinguishable
from normal/error closure. -/
theorem agent_websocket_close_4001 (registry : List String) (token : String)
    (n : Nat) :
    ((token = "" ∨ ("acs_".data.isPrefixOf token.data) = false)
        → agent_websocket registry token n
          = { close_code := some 4001,
              close_reason := some "Invalid agent token",
              registry_after_auth := registry, registry_final := registry,
              frames_processed := 0 })
    ∧ (∀ aid, validate_agent_token token = some aid
        → (agent_websocket registry token n).close_code = none) := by
  constructor
  · intro h
    have hv : validate_agent_token token = none := by
      rw [validate_agent_token, if_pos h]
    simp [agent_websocket, hv]
  · intro aid h
    simp [agent_websocket, h]

/-- Witness for C8: the invalid token `"wrong"` is rejected with 4001 and no
registration; the valid token `"acs_tok"` is not closed with 4001. -/
theorem agent_websocket_close_4001_w :
    (agent_websocket ["agent_a"] "wrong" 3).close_code = some 4001
    ∧ (agent_websocket ["agent_a"] "wrong" 3).registry_final = ["agent_a"]
    ∧ (agent_websocket ["agent_a"] "wrong" 3).frames_processed = 0
    ∧ (agent_websocket [] "acs_tok" 2).close_code = none := by
  have h := agent_websocket_close_4001 ["agent_a"] "wrong" 3
  have h2 := agent_websocket_close_4001 [] "acs_tok" 2
  have he := h.1 (Or.inr (by decide))
  have hv : validate_agent_token "acs_tok"
      = some ("agent_" ++ String.mk ("acs_tok".data.take 16)) := by
    rw [validate_agent_token, if_neg (by decide)]
  exact ⟨by rw [he], by rw [he], by rw [he], h2.2 _ hv⟩

end ABAPCodeStudio
